import Mathlib

/-!
Shallow embedding of archai/nas/evaluater.py (class Evaluater).

Python strings are modelled as lists of characters (Str).  External
collaborators (file system for descriptions, the description builder, module
import, attribute lookup and zero-argument invocation of factory functions,
data loading, the trainer, checkpoint creation, path resolution) are
parameters gathered in a World structure.  Side effects are recorded as an
explicit list of Event values in program order, and exceptions are modelled
with Except PyError.
-/

namespace ArchaiEval

/-- Python strings are modelled as lists of characters. -/
abbrev Str := List Char

/-- Embed a Lean string literal into the Str model. -/
def str (s : String) : Str := s.toList

/-- Opaque sub-configuration handle (the checkpoint, loader, trainer and
model_desc sections of conf_eval). -/
abbrev SubConf := Nat

/-- Opaque metrics value returned by the external Trainer collaborator. -/
abbrev Metrics := Nat

/-- Opaque data-iterator handle returned by data.get_data. -/
abbrev DataLoaderH := Nat

/-- Opaque checkpoint handle created by nas_utils.create_checkpoint. -/
abbrev CheckPointH := Nat

/-- Architecture description (ModelDesc): an opaque payload; this core only
loads, passes around and saves descriptions. -/
structure ModelDesc where
  id : Nat
deriving DecidableEq

/-- Model: either the description-wrapping constructor
Model(model_desc, droppath, affine) used by model_from_desc, or an arbitrary
externally constructed network returned by a factory function. -/
inductive Model where
  | fromDesc (desc : ModelDesc) (droppath : Bool) (affine : Bool)
  | external (id : Nat)
deriving DecidableEq

/-- Python exceptions that can cross the boundaries of this module.
The constructor modelConstructionFailed is never produced by the embedded
code; it exists so that the wrapping behaviour asserted by the spec can be
stated and compared with what the code actually does. -/
inductive PyError where
  | notImplemented (msg : Str)
  | moduleNotFound (module_name : Str)
  | attributeError (function_name : Str)
  | assertionError
  | descriptionLoadError (path : Str)
  | modelConstructionFailed (cause : PyError)
  | other (msg : Str)
deriving DecidableEq

/-- The module object used for the function lookup: either a module imported
by name via importlib.import_module, or the evaluater module itself,
sys.modules[__name__]. -/
inductive ModuleRef where
  | imported (module_name : Str)
  | selfModule
deriving DecidableEq

/-- Observable side effects, recorded in program order. -/
inductive Event where
  | confRead (key : Str)
  | resolveDefaultModule (dataset_name : Str) (function_name : Str)
  | modImport (module_name : Str)
  | useSelfModule
  | getattrCall (function_name : Str)
  | invokeFactory (function_name : Str)
  | descLoad (path : Option Str)
  | builderBuild (conf : SubConf) (template : ModelDesc)
  | descSave (path : Option Str) (d : ModelDesc)
  | modelFromDescCall (d : ModelDesc)
  | metricsSave (path : Str) (m : Metrics)
  | modelSave (path : Str) (model : Model)
deriving DecidableEq

/-- The external collaborators of evaluater.py, as oracles. -/
structure World where
  /-- file system holding architecture descriptions, keyed by path -/
  store : Str → Option ModelDesc
  /-- model_desc_builder.build(conf_model_desc, template) -/
  build : SubConf → ModelDesc → ModelDesc
  /-- whether importlib.import_module(module_name) succeeds -/
  importOk : Str → Bool
  /-- getattr(module, function_name) followed by a zero-argument call:
  none means the attribute is missing (AttributeError); some r means the
  function was found and invoking it produced r (ok model, or the error the
  construction raised) -/
  getattr : ModuleRef → Str → Option (Except PyError Model)
  /-- data.get_data(conf_loader) returning (train_dl, val_dl, test_dl) -/
  get_data : SubConf → Option DataLoaderH × Option DataLoaderH × Option DataLoaderH
  /-- Trainer(conf_train, model, checkpoint).fit(train_dl, test_dl) -/
  fit : SubConf → Model → Option CheckPointH → DataLoaderH → DataLoaderH → Metrics
  /-- nas_utils.create_checkpoint(conf_checkpoint, resume) -/
  create_checkpoint : SubConf → Bool → Option CheckPointH
  /-- utils.full_path -/
  full_path : Str → Str

/-- The configuration keys of conf_eval read by evaluater.py. -/
structure ConfEval where
  checkpoint : SubConf
  resume : Bool
  model_filename : Str
  metric_filename : Str
  /-- value of the nested key loader.dataset.name -/
  dataset_name : Str
  final_desc_filename : Str
  full_desc_filename : Str
  model_factory_spec : Str
  model_desc : SubConf
  loader : SubConf
  trainer : SubConf

/-- Python s.startswith(p), on the list model: startswithL p s decides whether
p is an initial segment of s. -/
def startswithL : Str → Str → Bool
  | [], _ => true
  | _ :: _, [] => false
  | p :: ps, c :: cs => p == c && startswithL ps cs

/-- Python s.startswith(p). -/
def startswith (s p : Str) : Bool := startswithL p s

/-- Split a string at its last '.' character: returns some (pre, post) with
pre ++ '.' :: post = s and no '.' in post, or none when s has no '.'. -/
def splitLastDot : Str → Option (Str × Str)
  | [] => none
  | c :: rest =>
    match splitLastDot rest with
    | some (pre, post) => some (c :: pre, post)
    | none => if c = '.' then some ([], rest) else none

/-- Python s.rsplit(sep one dot, maxsplit one): a one-element list when s has
no '.', otherwise the two pieces around the last '.'. -/
def rsplitDot1 (s : Str) : List Str :=
  match splitLastDot s with
  | none => [s]
  | some (pre, post) => [pre, post]

/-- Python truthiness of an optional string argument: None and the empty
string are falsy. -/
def pyTruthyOpt : Option Str → Bool
  | none => false
  | some s => !s.isEmpty

/-- Embeds Evaluater._default_module_name.  The local variable module_name
starts empty, is assigned by the dataset and function-name heuristic, and an
empty final value raises NotImplementedError with a message naming both the
function name and the dataset name. -/
def default_module_name (dataset_name function_name : Str) : Except PyError Str :=
  let module_name : Str :=
    if startswith dataset_name (str "cifar") then
      if startswith function_name (str "res") then str "archai.cifar10_models.resnet"
      else if startswith function_name (str "dense") then str "archai.cifar10_models.densenet"
      else []
    else if startswith dataset_name (str "imagenet") || startswith dataset_name (str "sport8") then
      str "torchvision.models"
    else []
  if module_name.isEmpty then
    Except.error (PyError.notImplemented
      (str "Cannot get default module for " ++ function_name ++ str " and dataset " ++
        dataset_name ++ str " because it is not supported yet"))
  else Except.ok module_name

/-- Embeds function = getattr(module, function_name); model = function().
The invocation result (success, or the error the construction raised) is
returned unchanged: the source has no try/except around the call. -/
def lookupAndCall (w : World) (ref : ModuleRef) (function_name : Str) (evs : List Event) :
    Except PyError Model × List Event :=
  match w.getattr ref function_name with
  | none =>
    (Except.error (PyError.attributeError function_name), evs ++ [Event.getattrCall function_name])
  | some r =>
    (r, evs ++ [Event.getattrCall function_name, Event.invokeFactory function_name])

/-- Embeds the tail of model_from_factory once module_name is determined:
module = importlib.import_module(module_name) if module_name else
sys.modules[__name__], then getattr and the zero-argument call. -/
def continueFactory (w : World) (module_name function_name : Str) (evs : List Event) :
    Except PyError Model × List Event :=
  if module_name.isEmpty then
    lookupAndCall w ModuleRef.selfModule function_name (evs ++ [Event.useSelfModule])
  else if w.importOk module_name then
    lookupAndCall w (ModuleRef.imported module_name) function_name
      (evs ++ [Event.modImport module_name])
  else
    (Except.error (PyError.moduleNotFound module_name), evs ++ [Event.modImport module_name])

/-- Embeds Evaluater.model_from_factory: rsplit the spec on the last '.',
take the last piece as function_name; when the split has more than one piece
the module name is the first piece, otherwise it is obtained from
_default_module_name (whose failure propagates). -/
def model_from_factory (w : World) (model_factory_spec dataset_name : Str) :
    Except PyError Model × List Event :=
  let splitted := rsplitDot1 model_factory_spec
  let function_name := splitted.getLastD []
  if splitted.length > 1 then
    continueFactory w (splitted.headD []) function_name []
  else
    match default_module_name dataset_name function_name with
    | Except.error e =>
      (Except.error e, [Event.resolveDefaultModule dataset_name function_name])
    | Except.ok module_name =>
      continueFactory w module_name function_name
        [Event.resolveDefaultModule dataset_name function_name]

/-- Embeds Evaluater.model_from_desc: Model(model_desc, droppath=True, affine=True). -/
def model_from_desc (model_desc : ModelDesc) : Model :=
  Model.fromDesc model_desc true true

/-- Modelled from the spec: ModelDesc.load (module archai.nas.model_desc is
not under src/): load an architecture description from the given path, and
fail with DescriptionLoadError when the file is missing.  A None path names
no file, so it also fails. -/
def descLoadModel (store : Str → Option ModelDesc) (path : Option Str) :
    Except PyError ModelDesc :=
  match path with
  | none => Except.error (PyError.descriptionLoadError (str "None"))
  | some p =>
    match store p with
    | none => Except.error (PyError.descriptionLoadError p)
    | some d => Except.ok d

/-- Modelled from the spec: ModelDesc.save (module archai.nas.model_desc is
not under src/): persist the description to the given path, overwriting any
existing file.  With a None path no file is named, so the store is unchanged;
the save call itself is always recorded in the event trace by the caller. -/
def descSaveStore (store : Str → Option ModelDesc) (path : Option Str) (d : ModelDesc) :
    Str → Option ModelDesc :=
  match path with
  | none => store
  | some p => fun q => if q = p then some d else store q

/-- Embeds the description-based branch of create_model: load the template
from final_desc_filename, build the full description, save it for reference
to full_desc_filename, then construct the model via model_from_desc. -/
def create_model_descpath (w : World) (conf_eval : ConfEval)
    (final_desc_filename full_desc_filename : Option Str) (evs : List Event) :
    Except PyError Model × (Str → Option ModelDesc) × List Event :=
  match descLoadModel w.store final_desc_filename with
  | Except.error e => (Except.error e, w.store, evs ++ [Event.descLoad final_desc_filename])
  | Except.ok template_model_desc =>
    let model_desc := w.build conf_eval.model_desc template_model_desc
    (Except.ok (model_from_desc model_desc),
     descSaveStore w.store full_desc_filename model_desc,
     evs ++ [Event.descLoad final_desc_filename,
             Event.builderBuild conf_eval.model_desc template_model_desc,
             Event.descSave full_desc_filename model_desc,
             Event.modelFromDescCall model_desc])

/-- Embeds the branch of create_model on model_factory_spec: non-empty uses
the pre-built factory model, empty takes the description-based path. -/
def create_model_body (w : World) (conf_eval : ConfEval)
    (final_desc_filename full_desc_filename : Option Str) (evs : List Event) :
    Except PyError Model × (Str → Option ModelDesc) × List Event :=
  if conf_eval.model_factory_spec.isEmpty then
    create_model_descpath w conf_eval final_desc_filename full_desc_filename evs
  else
    ((model_from_factory w conf_eval.model_factory_spec conf_eval.dataset_name).1,
     w.store,
     evs ++ (model_from_factory w conf_eval.model_factory_spec conf_eval.dataset_name).2)

/-- Embeds Evaluater.create_model.  The dataset name is read first; the
final_desc_filename and full_desc_filename configuration keys are read only
when the final_desc_filename argument is falsy (None or empty), otherwise
both parameters keep their passed values; then model_factory_spec and
model_desc are read and the branch is taken. -/
def create_model (w : World) (conf_eval : ConfEval)
    (final_desc_filename full_desc_filename : Option Str) :
    Except PyError Model × (Str → Option ModelDesc) × List Event :=
  if pyTruthyOpt final_desc_filename then
    create_model_body w conf_eval final_desc_filename full_desc_filename
      [Event.confRead (str "loader.dataset.name"),
       Event.confRead (str "model_factory_spec"),
       Event.confRead (str "model_desc")]
  else
    create_model_body w conf_eval (some conf_eval.final_desc_filename)
      (some conf_eval.full_desc_filename)
      [Event.confRead (str "loader.dataset.name"),
       Event.confRead (str "final_desc_filename"),
       Event.confRead (str "full_desc_filename"),
       Event.confRead (str "model_factory_spec"),
       Event.confRead (str "model_desc")]

/-- Embeds Evaluater.train_model: get the data iterators, assert that the
train and test iterators are both present, then construct the trainer and
fit.  A missing iterator is an assertion failure. -/
def train_model (w : World) (conf_train : ConfEval) (model : Model)
    (checkpoint : Option CheckPointH) : Except PyError Metrics :=
  let conf_loader := conf_train.loader
  let conf_trainer := conf_train.trainer
  let dls := w.get_data conf_loader
  match dls.1, dls.2.2 with
  | some train_dl, some test_dl =>
    Except.ok (w.fit conf_trainer model checkpoint train_dl test_dl)
  | some _, none => Except.error PyError.assertionError
  | none, some _ => Except.error PyError.assertionError
  | none, none => Except.error PyError.assertionError

/-- Embeds Evaluater.evaluate: create the model, create the checkpoint,
train, always save the metrics to metric_filename, and save the model
weights to full_path(model_filename) only when model_filename is non-empty. -/
def evaluate (w : World) (conf_eval : ConfEval) :
    Except PyError Metrics × (Str → Option ModelDesc) × List Event :=
  let cm := create_model w conf_eval none none
  match cm.1 with
  | Except.error e => (Except.error e, cm.2.1, cm.2.2)
  | Except.ok model =>
    let checkpoint := w.create_checkpoint conf_eval.checkpoint conf_eval.resume
    match train_model w conf_eval model checkpoint with
    | Except.error e => (Except.error e, cm.2.1, cm.2.2)
    | Except.ok train_metrics =>
      if conf_eval.model_filename.isEmpty then
        (Except.ok train_metrics, cm.2.1,
         cm.2.2 ++ [Event.metricsSave conf_eval.metric_filename train_metrics])
      else
        (Except.ok train_metrics, cm.2.1,
         cm.2.2 ++ [Event.metricsSave conf_eval.metric_filename train_metrics,
                    Event.modelSave (w.full_path conf_eval.model_filename) model])

/-! Helper lemmas about the splitting and prefix functions. -/

theorem splitLastDot_eq_none (l : Str) : splitLastDot l = none ↔ '.' ∉ l := by
  induction l with
  | nil => simp [splitLastDot]
  | cons c rest ih =>
    rw [splitLastDot]
    cases h : splitLastDot rest with
    | none =>
      rw [h] at ih
      have hrest : '.' ∉ rest := ih.mp rfl
      by_cases hc : c = '.'
      · subst hc; simp
      · simp only [List.mem_cons]
        simp only [hc, if_false]
        constructor
        · intro _ habs
          rcases habs with habs | habs
          · exact hc habs.symm
          · exact hrest habs
        · intro _; trivial
    | some pq =>
      obtain ⟨pre, post⟩ := pq
      rw [h] at ih
      have hmem : '.' ∈ rest := by
        by_contra hmem
        exact Option.noConfusion (ih.mpr hmem)
      simp only [List.mem_cons]
      constructor
      · intro habs; exact Option.noConfusion habs
      · intro habs; exact absurd (Or.inr hmem) habs

theorem splitLastDot_eq_some (l : Str) :
    ∀ pre post, splitLastDot l = some (pre, post) →
      pre ++ '.' :: post = l ∧ '.' ∉ post := by
  induction l with
  | nil => intro pre post h; simp [splitLastDot] at h
  | cons c rest ih =>
    intro pre post h
    rw [splitLastDot] at h
    cases hr : splitLastDot rest with
    | some pq =>
      obtain ⟨p, q⟩ := pq
      rw [hr] at h
      rw [Option.some.injEq, Prod.mk.injEq] at h
      obtain ⟨h1, h2⟩ := h
      subst h1
      subst h2
      obtain ⟨ihe, ihm⟩ := ih p q hr
      exact ⟨by rw [List.cons_append, ihe], ihm⟩
    | none =>
      rw [hr] at h
      by_cases hc : c = '.'
      · subst hc
        rw [if_pos rfl] at h
        cases h
        exact ⟨rfl, (splitLastDot_eq_none rest).mp hr⟩
      · simp [hc] at h

theorem sw_first_char {s : Str} {c : Char} {p : Str}
    (h : startswith s (c :: p) = true) : s.head? = some c := by
  cases s with
  | nil => simp [startswith, startswithL] at h
  | cons a t =>
    have h' : (c == a && startswithL p t) = true := h
    have hc : c = a := by
      have := (Bool.and_eq_true _ _).mp h'
      simpa using this.1
    subst hc
    rfl

theorem default_module_ok_not_empty (ds fn m : Str)
    (h : default_module_name ds fn = Except.ok m) : m.isEmpty = false := by
  have key : ∀ (mn : Str) (msg : PyError),
      (if mn.isEmpty then Except.error msg else Except.ok mn) = Except.ok m →
        m.isEmpty = false := by
    intro mn msg hh
    by_cases he : mn.isEmpty
    · rw [if_pos he] at hh; exact Except.noConfusion hh
    · rw [if_neg he] at hh
      cases hh
      exact Bool.eq_false_iff.mpr he
  unfold default_module_name at h
  exact key _ _ h

/-- C3: for every factory spec containing at least one '.', model_from_factory
splits on the last '.': rsplit yields a module part and a function name with
module ++ '.' ++ function equal to the spec and no '.' in the function name;
for a spec with no '.', the split is the one-element list holding the whole
spec, so the whole spec is the function name and there is no module part. -/
theorem C3_rsplit_last_dot (s : Str) :
    ('.' ∈ s →
       ∃ m f, rsplitDot1 s = [m, f] ∧ m ++ '.' :: f = s ∧ '.' ∉ f)
  ∧ ('.' ∉ s → rsplitDot1 s = [s]) := by
  constructor
  · intro hin
    cases h : splitLastDot s with
    | none => exact absurd hin (((splitLastDot_eq_none s).mp h))
    | some pq =>
      obtain ⟨pre, post⟩ := pq
      obtain ⟨he, hm⟩ := splitLastDot_eq_some s pre post h
      exact ⟨pre, post, by rw [rsplitDot1, h], he, hm⟩
  · intro hout
    rw [rsplitDot1, (splitLastDot_eq_none s).mpr hout]

theorem C3_witness :
    ('.' ∈ str "a.b.resnet34"
      ∧ ∃ m f, rsplitDot1 (str "a.b.resnet34") = [m, f]
          ∧ m ++ '.' :: f = str "a.b.resnet34" ∧ '.' ∉ f)
  ∧ ('.' ∉ str "resnet34" ∧ rsplitDot1 (str "resnet34") = [str "resnet34"]) :=
  ⟨⟨by decide, (C3_rsplit_last_dot (str "a.b.resnet34")).1 (by decide)⟩,
   ⟨by decide, (C3_rsplit_last_dot (str "resnet34")).2 (by decide)⟩⟩

/-- C2: _default_module_name returns the resnet module for cifar datasets and
res-prefixed function names, the densenet module for cifar datasets and
dense-prefixed function names, the torchvision module for imagenet or sport8
datasets regardless of the function name, and in every other case raises
NotImplementedError with a message naming the function name and the dataset
name. -/
theorem C2_default_module_name (ds fn : Str) :
    (startswith ds (str "cifar") = true → startswith fn (str "res") = true →
       default_module_name ds fn = Except.ok (str "archai.cifar10_models.resnet"))
  ∧ (startswith ds (str "cifar") = true → startswith fn (str "dense") = true →
       default_module_name ds fn = Except.ok (str "archai.cifar10_models.densenet"))
  ∧ ((startswith ds (str "imagenet") = true ∨ startswith ds (str "sport8") = true) →
       default_module_name ds fn = Except.ok (str "torchvision.models"))
  ∧ ((startswith ds (str "cifar") = false ∨
        (startswith fn (str "res") = false ∧ startswith fn (str "dense") = false)) →
     startswith ds (str "imagenet") = false → startswith ds (str "sport8") = false →
       default_module_name ds fn =
         Except.error (PyError.notImplemented
           (str "Cannot get default module for " ++ fn ++ str " and dataset " ++ ds ++
            str " because it is not supported yet"))) := by
  refine ⟨?_, ?_, ?_, ?_⟩
  · intro h1 h2
    simp only [default_module_name, h1, h2, if_true]
    rfl
  · intro h1 h2
    have hres : startswith fn (str "res") = false := by
      by_contra hr
      have hr' : startswith fn ('r' :: str "es") = true := by
        simpa using hr
      have h2' : startswith fn ('d' :: str "ense") = true := h2
      have a := sw_first_char hr'
      have b := sw_first_char h2'
      rw [a] at b
      exact absurd b (by decide)
    simp only [default_module_name, h1, h2, hres, if_true, if_false]
    rfl
  · intro h3
    have hcif : startswith ds (str "cifar") = false := by
      by_contra hcf
      have hcf' : startswith ds ('c' :: str "ifar") = true := by
        simpa using hcf
      have a := sw_first_char hcf'
      rcases h3 with h | h
      · have b := sw_first_char (c := 'i') (p := str "magenet") h
        rw [a] at b
        exact absurd b (by decide)
      · have b := sw_first_char (c := 's') (p := str "port8") h
        rw [a] at b
        exact absurd b (by decide)
    rcases h3 with h | h
    · simp only [default_module_name, hcif, h, if_false, Bool.true_or, if_true]
      rfl
    · simp only [default_module_name, hcif, h, if_false, Bool.or_true, if_true]
      rfl
  · intro h4 h5 h6
    rcases h4 with hcif | ⟨hres, hdense⟩
    · simp only [default_module_name, hcif, h5, h6, if_false, Bool.or_self]
      rfl
    · by_cases hcf : startswith ds (str "cifar") = true
      · simp only [default_module_name, hcf, hres, hdense, if_true, if_false]
        rfl
      · have hcif : startswith ds (str "cifar") = false := Bool.eq_false_iff.mpr hcf
        simp only [default_module_name, hcif, h5, h6, if_false, Bool.or_self]
        rfl

theorem C2_witness :
    (startswith (str "cifar10") (str "cifar") = true
      ∧ startswith (str "resnet34") (str "res") = true
      ∧ default_module_name (str "cifar10") (str "resnet34")
          = Except.ok (str "archai.cifar10_models.resnet"))
  ∧ (startswith (str "cifar100") (str "cifar") = true
      ∧ startswith (str "densenet121") (str "dense") = true
      ∧ default_module_name (str "cifar100") (str "densenet121")
          = Except.ok (str "archai.cifar10_models.densenet"))
  ∧ (startswith (str "imagenet") (str "imagenet") = true
      ∧ default_module_name (str "imagenet") (str "vgg16")
          = Except.ok (str "torchvision.models"))
  ∧ (startswith (str "sport8") (str "sport8") = true
      ∧ default_module_name (str "sport8") (str "vgg16")
          = Except.ok (str "torchvision.models"))
  ∧ default_module_name (str "mnist") (str "lenet")
      = Except.error (PyError.notImplemented
          (str "Cannot get default module for lenet and dataset mnist because it is not supported yet")) :=
  ⟨⟨by decide, by decide,
    (C2_default_module_name (str "cifar10") (str "resnet34")).1 (by decide) (by decide)⟩,
   ⟨by decide, by decide,
    (C2_default_module_name (str "cifar100") (str "densenet121")).2.1 (by decide) (by decide)⟩,
   ⟨by decide,
    (C2_default_module_name (str "imagenet") (str "vgg16")).2.2.1 (Or.inl (by decide))⟩,
   ⟨by decide,
    (C2_default_module_name (str "sport8") (str "vgg16")).2.2.1 (Or.inr (by decide))⟩,
   by
    have h := (C2_default_module_name (str "mnist") (str "lenet")).2.2.2
      (Or.inl (by decide)) (by decide) (by decide)
    rw [h]
    rfl⟩

/-! Event classifiers and trace-shape lemmas. -/

/-- Events that only the factory path (model_from_factory) can emit. -/
def Event.isFactoryEvent : Event → Bool
  | Event.resolveDefaultModule _ _ => true
  | Event.modImport _ => true
  | Event.useSelfModule => true
  | Event.getattrCall _ => true
  | Event.invokeFactory _ => true
  | _ => false

/-- Events that only the description-based path can emit. -/
def Event.isDescPathEvent : Event → Bool
  | Event.descLoad _ => true
  | Event.builderBuild _ _ => true
  | Event.descSave _ _ => true
  | Event.modelFromDescCall _ => true
  | _ => false

/-- A default-module resolution or a module import. -/
def Event.isResolveOrImport : Event → Bool
  | Event.resolveDefaultModule _ _ => true
  | Event.modImport _ => true
  | _ => false

/-- A metrics or model-weights write. -/
def Event.isPersist : Event → Bool
  | Event.metricsSave _ _ => true
  | Event.modelSave _ _ => true
  | _ => false

theorem lookupAndCall_snd (w : World) (ref : ModuleRef) (f : Str) (evs : List Event) :
    (lookupAndCall w ref f evs).2 = evs ++ [Event.getattrCall f] ∨
    (lookupAndCall w ref f evs).2 = evs ++ [Event.getattrCall f, Event.invokeFactory f] := by
  unfold lookupAndCall
  cases w.getattr ref f with
  | none => exact Or.inl rfl
  | some r => exact Or.inr rfl

theorem continueFactory_snd (w : World) (m f : Str) (evs : List Event) :
    ∃ l, (continueFactory w m f evs).2 = evs ++ l ∧ ∀ e ∈ l, e.isFactoryEvent = true := by
  unfold continueFactory
  by_cases hm : m.isEmpty = true
  · rw [if_pos hm]
    rcases lookupAndCall_snd w ModuleRef.selfModule f (evs ++ [Event.useSelfModule]) with h | h <;>
      rw [h, List.append_assoc]
    · exact ⟨_, rfl, by intro e he; simp at he; rcases he with rfl | rfl <;> rfl⟩
    · exact ⟨_, rfl, by intro e he; simp at he; rcases he with rfl | rfl | rfl <;> rfl⟩
  · rw [if_neg hm]
    by_cases hi : w.importOk m = true
    · rw [if_pos hi]
      rcases lookupAndCall_snd w (ModuleRef.imported m) f (evs ++ [Event.modImport m]) with h | h <;>
        rw [h, List.append_assoc]
      · exact ⟨_, rfl, by intro e he; simp at he; rcases he with rfl | rfl <;> rfl⟩
      · exact ⟨_, rfl, by intro e he; simp at he; rcases he with rfl | rfl | rfl <;> rfl⟩
    · rw [if_neg hi]
      exact ⟨_, rfl, by intro e he; simp at he; subst he; rfl⟩

theorem continueFactory_snd_modImport (w : World) (m f : Str) (evs : List Event)
    (hm : m.isEmpty = false) :
    ∃ l, (continueFactory w m f evs).2 = evs ++ Event.modImport m :: l := by
  unfold continueFactory
  rw [if_neg (by simp [hm])]
  by_cases hi : w.importOk m = true
  · rw [if_pos hi]
    rcases lookupAndCall_snd w (ModuleRef.imported m) f (evs ++ [Event.modImport m]) with h | h <;>
      rw [h, List.append_assoc]
    · exact ⟨_, rfl⟩
    · exact ⟨_, rfl⟩
  · rw [if_neg hi]
    exact ⟨[], rfl⟩

theorem mem_model_from_factory_snd (w : World) (s d : Str) (e : Event)
    (he : e ∈ (model_from_factory w s d).2) : e.isFactoryEvent = true := by
  simp only [model_from_factory] at he
  by_cases hl : (rsplitDot1 s).length > 1
  · rw [if_pos hl] at he
    obtain ⟨l, hl2, hall⟩ :=
      continueFactory_snd w ((rsplitDot1 s).headD []) ((rsplitDot1 s).getLastD []) []
    rw [hl2] at he
    simp only [List.nil_append] at he
    exact hall e he
  · rw [if_neg hl] at he
    cases hdm : default_module_name d ((rsplitDot1 s).getLastD []) with
    | error e' =>
      rw [hdm] at he
      simp only [List.mem_singleton] at he
      subst he
      rfl
    | ok mn =>
      rw [hdm] at he
      obtain ⟨l, hl2, hall⟩ := continueFactory_snd w mn ((rsplitDot1 s).getLastD [])
        [Event.resolveDefaultModule d ((rsplitDot1 s).getLastD [])]
      rw [hl2] at he
      rcases List.mem_append.mp he with h | h
      · simp only [List.mem_singleton] at h
        subst h
        rfl
      · exact hall e h

/-! Concrete worlds used by counterexamples and witnesses. -/

/-- A world in which every module import succeeds and every factory function
exists and returns an external model. -/
def w0 : World where
  store := fun _ => none
  build := fun _ d => d
  importOk := fun _ => true
  getattr := fun _ _ => some (Except.ok (Model.external 0))
  get_data := fun _ => (some 0, some 1, some 2)
  fit := fun _ _ _ _ _ => 0
  create_checkpoint := fun _ _ => some 0
  full_path := fun s => str "/abs/" ++ s

/-- Like w0, but every factory function raises during model construction. -/
def w1 : World :=
  { w0 with getattr := fun _ _ => some (Except.error (PyError.other (str "boom"))) }

/-- C1 counterexample: the factory spec ".resnet34" has an empty module part
(rsplit yields an empty first piece), yet model_from_factory neither calls
the default-module resolver nor imports any module: its event trace contains
no resolveDefaultModule and no modImport event. -/
theorem C1_counterexample :
    rsplitDot1 (str ".resnet34") = [[], str "resnet34"]
  ∧ (model_from_factory w0 (str ".resnet34") (str "cifar10")).2.filter
      Event.isResolveOrImport = [] := by
  constructor
  · decide
  · rfl

/-- C1 (amended): for every factory spec containing no '.', model_from_factory
obtains the module name by calling _default_module_name with the dataset name
and the function name (the whole spec), recording it as the first event, and
when the resolver returns a module name it imports that module. -/
theorem C1_no_dot_resolves_and_imports (w : World) (spec ds m : Str)
    (hnodot : '.' ∉ spec)
    (hres : default_module_name ds spec = Except.ok m) :
    (model_from_factory w spec ds).2.head? = some (Event.resolveDefaultModule ds spec)
  ∧ Event.modImport m ∈ (model_from_factory w spec ds).2 := by
  have hsp : rsplitDot1 spec = [spec] := by
    rw [rsplitDot1, (splitLastDot_eq_none spec).mpr hnodot]
  have hm : m.isEmpty = false := default_module_ok_not_empty ds spec m hres
  have hg : ([spec] : List Str).getLastD [] = spec := rfl
  simp only [model_from_factory, hsp, hg]
  rw [if_neg (by simp)]
  simp only [hres]
  obtain ⟨l, hl⟩ := continueFactory_snd_modImport w m spec
    [Event.resolveDefaultModule ds spec] hm
  rw [hl]
  constructor
  · rfl
  · simp

theorem C1_witness :
    ('.' ∉ str "resnet18")
  ∧ default_module_name (str "cifar10") (str "resnet18")
      = Except.ok (str "archai.cifar10_models.resnet")
  ∧ (model_from_factory w0 (str "resnet18") (str "cifar10")).2.head?
      = some (Event.resolveDefaultModule (str "cifar10") (str "resnet18"))
  ∧ Event.modImport (str "archai.cifar10_models.resnet")
      ∈ (model_from_factory w0 (str "resnet18") (str "cifar10")).2 := by
  have h := C1_no_dot_resolves_and_imports w0 (str "resnet18") (str "cifar10")
    (str "archai.cifar10_models.resnet") (by decide) rfl
  exact ⟨by decide, rfl, h.1, h.2⟩

/-- C9: for a factory spec whose last-dot split yields an empty module part
while a dot is present, model_from_factory does not call the default-module
resolver and does not import any module: the first event is the use of the
evaluater module itself (sys.modules[__name__]) and no resolveDefaultModule
or modImport event occurs. -/
theorem C9_dot_with_empty_module (w : World) (spec ds f : Str)
    (hsplit : rsplitDot1 spec = [[], f]) :
    (model_from_factory w spec ds).2.head? = some Event.useSelfModule
  ∧ ∀ e ∈ (model_from_factory w spec ds).2, e.isResolveOrImport = false := by
  have hg : ([[], f] : List Str).getLastD [] = f := rfl
  have hh : ([[], f] : List Str).headD [] = [] := rfl
  simp only [model_from_factory, hsplit, hg, hh]
  rw [if_pos (by simp)]
  unfold continueFactory
  rw [if_pos (show ([] : Str).isEmpty = true from rfl)]
  rcases lookupAndCall_snd w ModuleRef.selfModule f ([] ++ [Event.useSelfModule]) with h | h <;>
    rw [h]
  · constructor
    · rfl
    · intro e he
      simp at he
      rcases he with rfl | rfl <;> rfl
  · constructor
    · rfl
    · intro e he
      simp at he
      rcases he with rfl | rfl | rfl <;> rfl

theorem C9_witness :
    rsplitDot1 (str ".resnet34") = [[], str "resnet34"]
  ∧ (model_from_factory w0 (str ".resnet34") (str "cifar10")).2.head?
      = some Event.useSelfModule :=
  ⟨by decide,
   (C9_dot_with_empty_module w0 (str ".resnet34") (str "cifar10") (str "resnet34")
     (by decide)).1⟩

/-- C4 counterexample: in a world where the factory function is found but its
zero-argument invocation raises PyError.other "boom", model_from_factory
propagates exactly that error, and that error is not the
modelConstructionFailed wrapper around the original cause that the claim
asserts: the code has no try/except around the call. -/
theorem C4_counterexample :
    (model_from_factory w1 (str "mymod.build_model") (str "cifar10")).1
        = Except.error (PyError.other (str "boom"))
  ∧ PyError.other (str "boom")
      ≠ PyError.modelConstructionFailed (PyError.other (str "boom")) :=
  ⟨rfl, by decide⟩

/-- C4 (amended): when the factory function is found and its zero-argument
invocation fails, model_from_factory propagates the original error unmodified
to the caller; no wrapping occurs. -/
theorem C4_construction_failure_propagates (w : World) (spec ds m f : Str) (e : PyError)
    (hsplit : rsplitDot1 spec = [m, f])
    (himp : w.importOk m = true)
    (hcall : ∀ ref, w.getattr ref f = some (Except.error e)) :
    (model_from_factory w spec ds).1 = Except.error e := by
  simp only [model_from_factory, hsplit]
  rw [if_pos (by simp)]
  show (continueFactory w m f []).1 = Except.error e
  unfold continueFactory lookupAndCall
  by_cases hm : m.isEmpty = true
  · rw [if_pos hm, hcall ModuleRef.selfModule]
  · rw [if_neg hm, if_pos himp, hcall (ModuleRef.imported m)]

theorem C4_witness :
    rsplitDot1 (str "mymod.build_model") = [str "mymod", str "build_model"]
  ∧ (model_from_factory w1 (str "mymod.build_model") (str "cifar10")).1
      = Except.error (PyError.other (str "boom")) :=
  ⟨by decide,
   C4_construction_failure_propagates w1 (str "mymod.build_model") (str "cifar10")
     (str "mymod") (str "build_model") (PyError.other (str "boom"))
     (by decide) rfl (fun _ => rfl)⟩

/-! Lemmas about create_model and its two branches. -/

theorem factory_event_not_descpath (e : Event) (h : e.isFactoryEvent = true) :
    e.isDescPathEvent = false := by
  cases e <;> simp_all [Event.isFactoryEvent, Event.isDescPathEvent]

theorem descpath_event_not_factory (e : Event) (h : e.isDescPathEvent = true) :
    e.isFactoryEvent = false := by
  cases e <;> simp_all [Event.isFactoryEvent, Event.isDescPathEvent]

theorem factory_event_not_persist (e : Event) (h : e.isFactoryEvent = true) :
    e.isPersist = false := by
  cases e <;> simp_all [Event.isFactoryEvent, Event.isPersist]

theorem descpath_event_not_persist (e : Event) (h : e.isDescPathEvent = true) :
    e.isPersist = false := by
  cases e <;> simp_all [Event.isDescPathEvent, Event.isPersist]

theorem create_model_body_factory (w : World) (conf : ConfEval) (fd fq : Option Str)
    (evs : List Event) (hspec : conf.model_factory_spec.isEmpty = false) :
    create_model_body w conf fd fq evs =
      ((model_from_factory w conf.model_factory_spec conf.dataset_name).1, w.store,
       evs ++ (model_from_factory w conf.model_factory_spec conf.dataset_name).2) := by
  unfold create_model_body
  rw [if_neg (by simp [hspec])]

theorem create_model_body_descp (w : World) (conf : ConfEval) (fd fq : Option Str)
    (evs : List Event) (hspec : conf.model_factory_spec = []) :
    create_model_body w conf fd fq evs = create_model_descpath w conf fd fq evs := by
  unfold create_model_body
  rw [if_pos (by simp [hspec])]

theorem create_model_descpath_snd (w : World) (conf : ConfEval) (fd fq : Option Str)
    (evs : List Event) :
    (create_model_descpath w conf fd fq evs).2.2 = evs ++ [Event.descLoad fd] ∨
    ∃ t, (create_model_descpath w conf fd fq evs).2.2
        = evs ++ [Event.descLoad fd, Event.builderBuild conf.model_desc t,
                  Event.descSave fq (w.build conf.model_desc t),
                  Event.modelFromDescCall (w.build conf.model_desc t)] := by
  unfold create_model_descpath
  cases h : descLoadModel w.store fd with
  | error e => exact Or.inl rfl
  | ok t => exact Or.inr ⟨t, rfl⟩

theorem mem_create_model_descpath (w : World) (conf : ConfEval) (fd fq : Option Str)
    (evs : List Event) (e : Event)
    (he : e ∈ (create_model_descpath w conf fd fq evs).2.2) :
    e ∈ evs ∨ e.isDescPathEvent = true := by
  rcases create_model_descpath_snd w conf fd fq evs with h | ⟨t, h⟩
  · rw [h] at he
    rcases List.mem_append.mp he with h' | h'
    · exact Or.inl h'
    · right
      simp only [List.mem_singleton] at h'
      subst h'
      rfl
  · rw [h] at he
    rcases List.mem_append.mp he with h' | h'
    · exact Or.inl h'
    · right
      simp only [List.mem_cons, List.mem_singleton, List.not_mem_nil, or_false] at h'
      rcases h' with rfl | rfl | rfl | rfl <;> rfl

theorem mem_create_model_body (w : World) (conf : ConfEval) (fd fq : Option Str)
    (evs : List Event) (e : Event)
    (he : e ∈ (create_model_body w conf fd fq evs).2.2) :
    e ∈ evs ∨ e.isFactoryEvent = true ∨ e.isDescPathEvent = true := by
  unfold create_model_body at he
  by_cases hs : conf.model_factory_spec.isEmpty = true
  · rw [if_pos hs] at he
    rcases mem_create_model_descpath w conf fd fq evs e he with h | h
    · exact Or.inl h
    · exact Or.inr (Or.inr h)
  · rw [if_neg hs] at he
    rcases List.mem_append.mp he with h | h
    · exact Or.inl h
    · exact Or.inr (Or.inl (mem_model_from_factory_snd w _ _ e h))

theorem mem_create_model_not_persist (w : World) (conf : ConfEval) (fda fqa : Option Str)
    (e : Event) (he : e ∈ (create_model w conf fda fqa).2.2) : e.isPersist = false := by
  unfold create_model at he
  by_cases hf : pyTruthyOpt fda = true
  · rw [if_pos hf] at he
    rcases mem_create_model_body w conf _ _ _ e he with h | h | h
    · simp only [List.mem_cons, List.mem_singleton, List.not_mem_nil, or_false] at h
      rcases h with rfl | rfl | rfl <;> rfl
    · exact factory_event_not_persist e h
    · exact descpath_event_not_persist e h
  · rw [if_neg hf] at he
    rcases mem_create_model_body w conf _ _ _ e he with h | h | h
    · simp only [List.mem_cons, List.mem_singleton, List.not_mem_nil, or_false] at h
      rcases h with rfl | rfl | rfl | rfl | rfl <;> rfl
    · exact factory_event_not_persist e h
    · exact descpath_event_not_persist e h

/-! Concrete configurations used by witnesses. -/

/-- A configuration with an empty factory spec: the description-based path. -/
def conf0 : ConfEval where
  checkpoint := 0
  resume := false
  model_filename := str "model.pt"
  metric_filename := str "metrics.yaml"
  dataset_name := str "cifar10"
  final_desc_filename := str "final_desc.yaml"
  full_desc_filename := str "full_desc.yaml"
  model_factory_spec := []
  model_desc := 7
  loader := 1
  trainer := 2

/-- Like conf0 but with a non-empty factory spec: the factory path. -/
def conf1 : ConfEval :=
  { conf0 with model_factory_spec := str "resnet18" }

/-- Like w0, but the file system holds a template description at
final_desc.yaml and the builder combines the config with the template. -/
def w2 : World :=
  { w0 with
    store := fun p => if p = str "final_desc.yaml" then some ⟨5⟩ else none,
    build := fun c d => ⟨c + d.id⟩ }

theorem descLoad_mem_create_model_descpath (w : World) (conf : ConfEval)
    (fd fq : Option Str) (evs : List Event) :
    Event.descLoad fd ∈ (create_model_descpath w conf fd fq evs).2.2 := by
  rcases create_model_descpath_snd w conf fd fq evs with h | ⟨t, h⟩ <;> rw [h] <;> simp

/-- C5: in every call to create_model exactly one model-source path is taken,
and the two are mutually exclusive and collectively exhaustive: with a
non-empty model_factory_spec the result is that of model_from_factory and no
description-path event (load, build, save, construct-from-desc) is emitted;
with an empty model_factory_spec the description-based path is used — the
call delegates to create_model_descpath (with the configured filenames when
none were passed explicitly) and a description-load event always occurs —
and no factory event is emitted, so model_from_factory is never called. -/
theorem C5_exclusive_paths (w : World) (conf : ConfEval) (fda fqa : Option Str) :
    (conf.model_factory_spec ≠ [] →
       (create_model w conf fda fqa).1
           = (model_from_factory w conf.model_factory_spec conf.dataset_name).1
     ∧ ∀ e ∈ (create_model w conf fda fqa).2.2, e.isDescPathEvent = false)
  ∧ (conf.model_factory_spec = [] →
       (∃ fd, Event.descLoad fd ∈ (create_model w conf fda fqa).2.2)
     ∧ (pyTruthyOpt fda = true →
          create_model w conf fda fqa = create_model_descpath w conf fda fqa
            [Event.confRead (str "loader.dataset.name"),
             Event.confRead (str "model_factory_spec"),
             Event.confRead (str "model_desc")])
     ∧ (pyTruthyOpt fda = false →
          create_model w conf fda fqa = create_model_descpath w conf
            (some conf.final_desc_filename) (some conf.full_desc_filename)
            [Event.confRead (str "loader.dataset.name"),
             Event.confRead (str "final_desc_filename"),
             Event.confRead (str "full_desc_filename"),
             Event.confRead (str "model_factory_spec"),
             Event.confRead (str "model_desc")])
     ∧ ∀ e ∈ (create_model w conf fda fqa).2.2, e.isFactoryEvent = false) := by
  constructor
  · intro hspec
    have hb : conf.model_factory_spec.isEmpty = false := by
      cases hc : conf.model_factory_spec with
      | nil => exact absurd hc hspec
      | cons a t => rfl
    unfold create_model
    by_cases hf : pyTruthyOpt fda = true
    · rw [if_pos hf, create_model_body_factory w conf _ _ _ hb]
      refine ⟨rfl, ?_⟩
      intro e he
      rcases List.mem_append.mp he with h | h
      · simp only [List.mem_cons, List.mem_singleton, List.not_mem_nil, or_false] at h
        rcases h with rfl | rfl | rfl <;> rfl
      · exact factory_event_not_descpath e (mem_model_from_factory_snd w _ _ e h)
    · rw [if_neg hf, create_model_body_factory w conf _ _ _ hb]
      refine ⟨rfl, ?_⟩
      intro e he
      rcases List.mem_append.mp he with h | h
      · simp only [List.mem_cons, List.mem_singleton, List.not_mem_nil, or_false] at h
        rcases h with rfl | rfl | rfl | rfl | rfl <;> rfl
      · exact factory_event_not_descpath e (mem_model_from_factory_snd w _ _ e h)
  · intro hspec
    have hfac : ∀ e ∈ (create_model w conf fda fqa).2.2, e.isFactoryEvent = false := by
      intro e he
      unfold create_model at he
      by_cases hf : pyTruthyOpt fda = true
      · rw [if_pos hf, create_model_body_descp w conf _ _ _ hspec] at he
        rcases mem_create_model_descpath w conf _ _ _ e he with h | h
        · simp only [List.mem_cons, List.mem_singleton, List.not_mem_nil, or_false] at h
          rcases h with rfl | rfl | rfl <;> rfl
        · exact descpath_event_not_factory e h
      · rw [if_neg hf, create_model_body_descp w conf _ _ _ hspec] at he
        rcases mem_create_model_descpath w conf _ _ _ e he with h | h
        · simp only [List.mem_cons, List.mem_singleton, List.not_mem_nil, or_false] at h
          rcases h with rfl | rfl | rfl | rfl | rfl <;> rfl
        · exact descpath_event_not_factory e h
    by_cases hf : pyTruthyOpt fda = true
    · have hcm : create_model w conf fda fqa = create_model_descpath w conf fda fqa
          [Event.confRead (str "loader.dataset.name"),
           Event.confRead (str "model_factory_spec"),
           Event.confRead (str "model_desc")] := by
        unfold create_model
        rw [if_pos hf, create_model_body_descp w conf _ _ _ hspec]
      refine ⟨⟨fda, ?_⟩, fun _ => hcm, fun hc => ?_, hfac⟩
      · rw [hcm]
        exact descLoad_mem_create_model_descpath w conf fda fqa _
      · rw [hf] at hc
        exact absurd hc (by decide)
    · have hf' : pyTruthyOpt fda = false := Bool.eq_false_iff.mpr hf
      have hcm : create_model w conf fda fqa = create_model_descpath w conf
          (some conf.final_desc_filename) (some conf.full_desc_filename)
          [Event.confRead (str "loader.dataset.name"),
           Event.confRead (str "final_desc_filename"),
           Event.confRead (str "full_desc_filename"),
           Event.confRead (str "model_factory_spec"),
           Event.confRead (str "model_desc")] := by
        unfold create_model
        rw [if_neg hf, create_model_body_descp w conf _ _ _ hspec]
      refine ⟨⟨some conf.final_desc_filename, ?_⟩, fun hc => ?_, fun _ => hcm, hfac⟩
      · rw [hcm]
        exact descLoad_mem_create_model_descpath w conf _ _ _
      · rw [hf'] at hc
        exact absurd hc (by decide)

theorem C5_witness :
    conf1.model_factory_spec ≠ []
  ∧ (create_model w0 conf1 none none).1
      = (model_from_factory w0 conf1.model_factory_spec conf1.dataset_name).1
  ∧ conf0.model_factory_spec = []
  ∧ (∃ fd, Event.descLoad fd ∈ (create_model w2 conf0 none none).2.2)
  ∧ (create_model w2 conf0 none none).2.2.filter Event.isFactoryEvent = [] := by
  refine ⟨by decide, ((C5_exclusive_paths w0 conf1 none none).1 (by decide)).1, rfl,
    ((C5_exclusive_paths w2 conf0 none none).2 rfl).1, by decide⟩

/-- C6: on the description-based path, create_model loads the template from
the final-description file, invokes the builder on that template, saves the
built description to the full-description file before constructing the model
(the descSave event precedes the modelFromDescCall event in the trace), and
constructs Model(built description, droppath=True, affine=True); the save
overwrites: the resulting store maps the output path to the built
description regardless of its previous content, in particular also when the
output path equals the template path. -/
theorem C6_desc_path (w : World) (conf : ConfEval) (t : ModelDesc)
    (hspec : conf.model_factory_spec = [])
    (hload : w.store conf.final_desc_filename = some t) :
    create_model w conf none none =
      (Except.ok (Model.fromDesc (w.build conf.model_desc t) true true),
       descSaveStore w.store (some conf.full_desc_filename) (w.build conf.model_desc t),
       [Event.confRead (str "loader.dataset.name"),
        Event.confRead (str "final_desc_filename"),
        Event.confRead (str "full_desc_filename"),
        Event.confRead (str "model_factory_spec"),
        Event.confRead (str "model_desc"),
        Event.descLoad (some conf.final_desc_filename),
        Event.builderBuild conf.model_desc t,
        Event.descSave (some conf.full_desc_filename) (w.build conf.model_desc t),
        Event.modelFromDescCall (w.build conf.model_desc t)])
  ∧ descSaveStore w.store (some conf.full_desc_filename) (w.build conf.model_desc t)
      conf.full_desc_filename = some (w.build conf.model_desc t) := by
  constructor
  · unfold create_model
    rw [if_neg (by simp [pyTruthyOpt])]
    rw [create_model_body_descp w conf _ _ _ hspec]
    unfold create_model_descpath
    have hl : descLoadModel w.store (some conf.final_desc_filename) = Except.ok t := by
      simp only [descLoadModel, hload]
    rw [hl]
    rfl
  · show (if conf.full_desc_filename = conf.full_desc_filename
        then some (w.build conf.model_desc t)
        else w.store conf.full_desc_filename) = some (w.build conf.model_desc t)
    rw [if_pos rfl]

theorem C6_witness :
    conf0.model_factory_spec = []
  ∧ w2.store conf0.final_desc_filename = some ⟨5⟩
  ∧ (create_model w2 conf0 none none).1 = Except.ok (Model.fromDesc ⟨12⟩ true true)
  ∧ (create_model w2 conf0 none none).2.1 conf0.full_desc_filename = some ⟨12⟩ := by
  have h := C6_desc_path w2 conf0 ⟨5⟩ rfl rfl
  refine ⟨rfl, rfl, ?_, ?_⟩
  · rw [h.1]
    rfl
  · rw [h.1]
    exact h.2

/-- C10: when create_model is called with a truthy explicit
final_desc_filename argument, the configuration keys final_desc_filename and
full_desc_filename are never read (no such confRead event occurs), and on the
description-based path the built description is saved to the passed
full_desc_filename value (None by default): the descSave event carries that
value. -/
theorem C10_explicit_final (w : World) (conf : ConfEval) (p : Str) (fq : Option Str)
    (hp : p.isEmpty = false) :
    (Event.confRead (str "final_desc_filename") ∉ (create_model w conf (some p) fq).2.2
      ∧ Event.confRead (str "full_desc_filename") ∉ (create_model w conf (some p) fq).2.2)
  ∧ (∀ t, conf.model_factory_spec = [] → w.store p = some t →
       Event.descSave fq (w.build conf.model_desc t) ∈ (create_model w conf (some p) fq).2.2) := by
  have hcm : create_model w conf (some p) fq
      = create_model_body w conf (some p) fq
          [Event.confRead (str "loader.dataset.name"),
           Event.confRead (str "model_factory_spec"),
           Event.confRead (str "model_desc")] := by
    unfold create_model
    rw [if_pos (by simp [pyTruthyOpt, hp])]
  have main : ∀ k : Str,
      Event.confRead k ∉ ([Event.confRead (str "loader.dataset.name"),
        Event.confRead (str "model_factory_spec"),
        Event.confRead (str "model_desc")] : List Event) →
      Event.confRead k ∉ (create_model w conf (some p) fq).2.2 := by
    intro k hk habs
    rw [hcm] at habs
    rcases mem_create_model_body w conf _ _ _ _ habs with h | h | h
    · exact hk h
    · simp [Event.isFactoryEvent] at h
    · simp [Event.isDescPathEvent] at h
  constructor
  · exact ⟨main _ (by decide), main _ (by decide)⟩
  · intro t hspec hload
    rw [hcm, create_model_body_descp w conf _ _ _ hspec]
    unfold create_model_descpath
    have hl : descLoadModel w.store (some p) = Except.ok t := by
      simp only [descLoadModel, hload]
    rw [hl]
    simp

theorem C10_witness :
    (str "final_desc.yaml").isEmpty = false
  ∧ Event.confRead (str "final_desc_filename")
      ∉ (create_model w2 conf0 (some (str "final_desc.yaml")) none).2.2
  ∧ Event.confRead (str "full_desc_filename")
      ∉ (create_model w2 conf0 (some (str "final_desc.yaml")) none).2.2
  ∧ Event.descSave none (w2.build conf0.model_desc ⟨5⟩)
      ∈ (create_model w2 conf0 (some (str "final_desc.yaml")) none).2.2 := by
  have h := C10_explicit_final w2 conf0 (str "final_desc.yaml") none rfl
  exact ⟨rfl, h.1.1, h.1.2, h.2 ⟨5⟩ rfl rfl⟩

/-- C8: train_model asserts that the train and test iterators returned by
data.get_data are both present: when both are some it returns the metrics of
trainer.fit on them (the assertion-failure branch is unreachable), and when
either is missing it fails with the assertion error, which is not caught. -/
theorem C8_train_model (w : World) (conf : ConfEval) (model : Model)
    (cp : Option CheckPointH) :
    (∀ tr te, (w.get_data conf.loader).1 = some tr → (w.get_data conf.loader).2.2 = some te →
       train_model w conf model cp = Except.ok (w.fit conf.trainer model cp tr te))
  ∧ ((w.get_data conf.loader).1 = none ∨ (w.get_data conf.loader).2.2 = none →
       train_model w conf model cp = Except.error PyError.assertionError) := by
  constructor
  · intro tr te h1 h2
    simp only [train_model, h1, h2]
  · intro h
    rcases h with h | h
    · simp only [train_model, h]
      cases (w.get_data conf.loader).2.2 <;> rfl
    · simp only [train_model, h]
      cases (w.get_data conf.loader).1 <;> rfl

theorem C8_witness :
    (w0.get_data conf0.loader).1 = some 0
  ∧ (w0.get_data conf0.loader).2.2 = some 2
  ∧ train_model w0 conf0 (Model.external 0) none
      = Except.ok (w0.fit conf0.trainer (Model.external 0) none 0 2) :=
  ⟨rfl, rfl, (C8_train_model w0 conf0 (Model.external 0) none).1 0 2 rfl rfl⟩

/-- C7: in every evaluate call whose model creation and training complete,
the metrics are saved to metric_filename unconditionally; the model weights
are written only when model_filename is non-empty, to the full_path
resolution of that filename; an empty model_filename skips the model write
and the call still succeeds; and no persistence event precedes training
(create_model emits none). -/
theorem C7_evaluate (w : World) (conf : ConfEval) (model : Model)
    (st : Str → Option ModelDesc) (evs : List Event) (mt : Metrics)
    (hcm : create_model w conf none none = (Except.ok model, st, evs))
    (htm : train_model w conf model (w.create_checkpoint conf.checkpoint conf.resume)
             = Except.ok mt) :
    evaluate w conf = (Except.ok mt, st,
      evs ++ Event.metricsSave conf.metric_filename mt ::
        (if conf.model_filename.isEmpty then []
         else [Event.modelSave (w.full_path conf.model_filename) model]))
  ∧ ∀ e ∈ evs, e.isPersist = false := by
  constructor
  · simp only [evaluate, hcm, htm]
    by_cases hmf : conf.model_filename.isEmpty = true
    · rw [if_pos hmf, if_pos hmf]
    · rw [if_neg hmf, if_neg hmf]
  · intro e he
    have hevs : evs = (create_model w conf none none).2.2 := by
      rw [hcm]
    rw [hevs] at he
    exact mem_create_model_not_persist w conf none none e he

theorem C7_witness :
    Event.metricsSave conf0.metric_filename 0 ∈ (evaluate w2 conf0).2.2
  ∧ Event.modelSave (w2.full_path conf0.model_filename) (Model.fromDesc ⟨12⟩ true true)
      ∈ (evaluate w2 conf0).2.2 := by
  have h := C7_evaluate w2 conf0 (Model.fromDesc ⟨12⟩ true true)
    (descSaveStore w2.store (some conf0.full_desc_filename) ⟨12⟩)
    [Event.confRead (str "loader.dataset.name"),
     Event.confRead (str "final_desc_filename"),
     Event.confRead (str "full_desc_filename"),
     Event.confRead (str "model_factory_spec"),
     Event.confRead (str "model_desc"),
     Event.descLoad (some conf0.final_desc_filename),
     Event.builderBuild conf0.model_desc ⟨5⟩,
     Event.descSave (some conf0.full_desc_filename) ⟨12⟩,
     Event.modelFromDescCall ⟨12⟩] 0 rfl rfl
  rw [h.1]
  constructor
  · simp
  · refine List.mem_append.mpr (Or.inr ?_)
    rw [show conf0.model_filename.isEmpty = false from rfl]
    simp

end ArchaiEval
